import Mathlib

/-!
Verification of the valour-holdings metrics-aggregation layer.

The development shallowly embeds the business-logic core of the repository:
the date-range resolver (src/services/dateService.ts), the Solar adapter
(src/services/solarService.ts, whose file holds two revisions; the second,
current revision is embedded under the namespace Solar, and the superseded
first revision of fetchKPIMetrics is kept as Solar.fetchKPIMetricsV1), and
the ECO4 adapter (src/services/eco4Service.ts, namespace ECO4).

Modelling conventions:
- JavaScript Date objects are modelled by the structure JSDate holding the
  local calendar components; setMonth / setDate follow the ECMAScript
  MakeDay normalization (month overflow adjusts the year, day overflow
  rolls into adjacent months).  Day normalization is written with a fuel
  argument (60 is far beyond any reachable drift) so it stays structural.
- Timestamps stored in backing-store rows are modelled as integer codes,
  order-isomorphic to chronological order of normalized dates, so the
  Postgres gte / lte comparisons on ISO strings become integer comparisons.
- A backing-store query outcome is an Except: Except.error models a failed
  query, Except.ok carries the full table; the adapter-side filters of the
  query builder are applied to the table.
- JavaScript numbers are modelled by JSNum (rationals plus NaN and signed
  infinity); floating-point rounding is idealized to exact rationals.
-/

/-- Milliseconds in a day, the radix of the time-of-day part of codes. -/
def DayMs : Int := 86400000

/-- Gregorian leap-year test (as in the proleptic calendar used by JS). -/
def isLeap (y : Int) : Bool := y % 4 == 0 && (y % 100 != 0 || y % 400 == 0)

/-- Days in month m (0-based month index) of year y. -/
def daysInMonth (y : Int) (m : Nat) : Nat :=
  match m with
  | 0 => 31 | 1 => if isLeap y then 29 else 28 | 2 => 31 | 3 => 30
  | 4 => 31 | 5 => 30 | 6 => 31 | 7 => 31
  | 8 => 30 | 9 => 31 | 10 => 30 | _ => 31

/-- Normalize a day-of-month that may lie outside 1..daysInMonth by rolling
into adjacent months, as ECMAScript MakeDay does.  Structural on fuel; all
uses in this file need at most two steps. -/
def normD : Nat → Int → Nat → Int → Int × Nat × Int
  | 0, y, m, d => (y, m, d)
  | fuel + 1, y, m, d =>
    if d < 1 then
      let y' := if m = 0 then y - 1 else y
      let m' := if m = 0 then 11 else m - 1
      normD fuel y' m' (d + (daysInMonth y' m' : Int))
    else if (daysInMonth y m : Int) < d then
      let y' := if m = 11 then y + 1 else y
      let m' := if m = 11 then 0 else m + 1
      normD fuel y' m' (d - (daysInMonth y m : Int))
    else (y, m, d)

/-- ECMAScript MakeDay: fold an arbitrary month index into the year, then
normalize the day-of-month. -/
def makeDay (y m d : Int) : Int × Nat × Int :=
  normD 60 (y + m.fdiv 12) (m.fmod 12).toNat d

/-- A JavaScript Date value, in local calendar components.  month is the
0-based month index; day is 1-based. -/
structure JSDate where
  year : Int
  month : Nat
  day : Int
  hour : Int
  minute : Int
  second : Int
  ms : Int
deriving DecidableEq, Repr

namespace JSDate

/-- new Date(y, m, d) with midnight time components. -/
def newDate (y m d : Int) : JSDate :=
  let (y', m', d') := makeDay y m d
  ⟨y', m', d', 0, 0, 0, 0⟩

/-- date.setHours(h, mi, s, ms). -/
def setHours (dt : JSDate) (h mi s ms : Int) : JSDate :=
  { dt with hour := h, minute := mi, second := s, ms := ms }

/-- date.setDate(n): MakeDay with the stored year and month. -/
def setDate (dt : JSDate) (n : Int) : JSDate :=
  let (y', m', d') := makeDay dt.year (dt.month : Int) n
  { dt with year := y', month := m', day := d' }

/-- date.setMonth(m): MakeDay with the stored year and day-of-month. -/
def setMonth (dt : JSDate) (m : Int) : JSDate :=
  let (y', m', d') := makeDay dt.year m dt.day
  { dt with year := y', month := m', day := d' }

/-- date.getMonth(). -/
def getMonth (dt : JSDate) : Int := (dt.month : Int)

/-- date.getFullYear(). -/
def getFullYear (dt : JSDate) : Int := dt.year

/-- Order-isomorphic integer code of an instant; stands in for the ISO-8601
string that date.toISOString() would produce (ISO strings of normalized
dates compare chronologically, exactly as these codes do). -/
def code (dt : JSDate) : Int :=
  ((dt.year * 12 + (dt.month : Int)) * 32 + dt.day) * DayMs
    + ((dt.hour * 60 + dt.minute) * 60 + dt.second) * 1000 + dt.ms

end JSDate

/-- Integer code of midnight of a calendar day, used to populate date-valued
columns of backing-store rows. -/
def dCode (y : Int) (m : Nat) (d : Int) : Int :=
  ((y * 12 + (m : Int)) * 32 + d) * DayMs

/-- 0-based month index recovered from a timestamp code; stands in for
new Date(s).toLocaleString month extraction used by the trend bucketing. -/
def monthOfCode (c : Int) : Nat := ((c / DayMs / 32) % 12).toNat

/-- Short month name of a 0-based month index. -/
def monthShort (m : Nat) : String :=
  (["Jan", "Feb", "Mar", "Apr", "May", "Jun", "Jul", "Aug",
    "Sep", "Oct", "Nov", "Dec"]).getD m ""

/-- A JavaScript number: NaN, a signed infinity, or a finite value
(idealized as a rational). -/
inductive JSNum where
  | nan : JSNum
  | inf : Bool → JSNum
  | val : ℚ → JSNum
deriving DecidableEq, Repr

/-- JavaScript addition on JSNum (NaN absorbs; opposite infinities give
NaN; floating-point rounding idealized away). -/
def JSNum.add : JSNum → JSNum → JSNum
  | .nan, _ => .nan
  | _, .nan => .nan
  | .inf s, .inf t => if s = t then .inf s else .nan
  | .inf s, .val _ => .inf s
  | .val _, .inf t => .inf t
  | .val a, .val b => .val (a + b)

/-- A JavaScript value arriving from the backing store in a monetary column:
a number, a string, null, or undefined (a NaN number input is out of model;
numeric database columns never hold NaN). -/
inductive CVal where
  | num : ℚ → CVal
  | str : String → CVal
  | null : CVal
  | undef : CVal
deriving DecidableEq, Repr

/-- Digits of the leading decimal-digit run of a character list, together
with the rest of the list. -/
def takeDigits (cs : List Char) : List Char × List Char :=
  match cs with
  | [] => ([], [])
  | c :: rest =>
    if c.isDigit then
      let (ds, r) := takeDigits rest
      (c :: ds, r)
    else ([], cs)

/-- Natural-number value of a digit list (most significant first). -/
def digitsVal (ds : List Char) : Nat :=
  ds.foldl (fun a c => a * 10 + (c.toNat - 48)) 0

/-- Mantissa of a JS StrDecimalLiteral: integer digits, an optional dot with
fraction digits.  Returns none when no digit at all is present. -/
def parseMantissa (cs : List Char) : Option (ℚ × List Char) :=
  let (ip, r1) := takeDigits cs
  match r1 with
  | '.' :: r2 =>
    let (fp, r3) := takeDigits r2
    if ip.isEmpty && fp.isEmpty then none
    else some ((digitsVal ip : ℚ) + (digitsVal fp : ℚ) / ((10 : ℚ) ^ fp.length), r3)
  | _ =>
    if ip.isEmpty then none
    else some ((digitsVal ip : ℚ), r1)

/-- Optional exponent part: e or E, an optional sign, then digits.  When the
digits are missing the exponent is not consumed (longest valid prefix). -/
def parseExponent (cs : List Char) (q : ℚ) : ℚ :=
  match cs with
  | e :: r1 =>
    if e = 'e' || e = 'E' then
      let (neg, r2) := match r1 with
        | '-' :: r => (true, r)
        | '+' :: r => (false, r)
        | _ => (false, r1)
      let (ds, _) := takeDigits r2
      if ds.isEmpty then q
      else if neg then q / ((10 : ℚ) ^ digitsVal ds)
      else q * ((10 : ℚ) ^ digitsVal ds)
    else q
  | [] => q

/-- JavaScript parseFloat: skip leading whitespace, accept an optional sign,
then either Infinity or a decimal literal prefix; NaN when no numeric
prefix exists. -/
def parseFloat (s : String) : JSNum :=
  let cs := s.toList.dropWhile (fun c => c = ' ' || c = '\t' || c = '\n' || c = '\r')
  let (neg, cs1) := match cs with
    | '-' :: r => (true, r)
    | '+' :: r => (false, r)
    | _ => (false, cs)
  if (String.mk cs1).startsWith "Infinity" then .inf neg
  else
    match parseMantissa cs1 with
    | none => .nan
    | some (q, r) =>
      let v := parseExponent r q
      .val (if neg then -v else v)

/-- Characters removed by the replace call of parseCurrency.  The source
regex is written with the mojibake character class, so it strips the two
characters of the UTF-8 pound sign read as Latin-1 plus the comma. -/
def stripCurrencyChars (s : String) : String :=
  String.mk (s.toList.filter (fun c => !(c = 'Â' || c = '£' || c = ',')))

/-- parseCurrency of eco4Service.ts lines 6 to 10: numbers pass through,
falsy inputs (null, undefined, the empty string) give 0, and other strings
are stripped of currency characters and fed to parseFloat, with the empty
result string falling back to the literal string 0. -/
def parseCurrency : CVal → JSNum
  | .num q => .val q
  | .null => .val 0
  | .undef => .val 0
  | .str s =>
    if s = "" then .val 0
    else
      let t := stripCurrencyChars s
      parseFloat (if t = "" then "0" else t)

/-! ## Canonical record shapes and user model (src/types.ts) -/

/-- A user role. -/
inductive Role where
  | field_rep : Role
  | account_manager : Role
  | admin : Role
deriving DecidableEq, Repr

/-- A user profile as read from the user directory. -/
structure UserProfile where
  id : String
  email : String
  name : String
  role : Role
deriving DecidableEq, Repr

/-- The canonical lead record.  Date-valued columns are Option Int codes
(none models SQL null), string columns Option String, monetary columns
Option rationals. -/
structure SolarLead where
  id : Int
  Created_At : Option Int
  Customer_Name : Option String
  Customer_Tel : Option String
  Customer_Email : Option String
  First_Line_Of_Address : Option String
  Postcode : Option String
  Property_Type : Option String
  Lead_Source : Option String
  Field_Rep : Option String
  Account_Manager : Option String
  Installer : Option String
  Status : Option String
  Survey_Booked_Date : Option Int
  Survey_Complete_Date : Option Int
  Install_Booked_Date : Option Int
  Paid_Date : Option Int
  Lead_Cost : Option ℚ
  Lead_Revenue : Option ℚ
  Commission_Amount : Option ℚ
  Commission_Paid : Option String
  Commission_Paid_Date : Option Int
deriving DecidableEq, Repr

/-- A lead record with every nullable column null, used to build concrete
rows compactly. -/
def blankLead : SolarLead :=
  ⟨0, none, none, none, none, none, none, none, none, none, none, none,
   none, none, none, none, none, none, none, none, none, none⟩

/-- An expense-ledger row (finances schema). -/
structure Expense where
  id : Int
  transaction_date : Int
  amount : ℚ
  expense_type : String
deriving DecidableEq, Repr

/-- The KPI bundle returned by fetchKPIMetrics. -/
structure KPIBundle where
  leadsCount : Nat
  surveysCount : Nat
  installsCount : Nat
  paidCount : Nat
  revenue : ℚ
deriving DecidableEq, Repr

/-- A leaderboard entry. -/
structure LeaderboardEntry where
  name : String
  leads : Nat
  installs : Nat
  paid : Nat
  conversion : ℚ
deriving DecidableEq, Repr

/-- A monthly funnel-activity bucket. -/
structure MonthlyActivity where
  month : String
  leads : Nat
  surveys : Nat
  installs : Nat
  paid : Nat
deriving DecidableEq, Repr

/-- A monthly revenue bucket. -/
structure RevenueTrendData where
  month : String
  revenue : ℚ
deriving DecidableEq, Repr

/-- A per-source lead statistic. -/
structure LeadSourceStat where
  source : String
  count : Nat
  percentage : ℚ
  conversion : ℚ
deriving DecidableEq, Repr

/-- A per-installer statistic. -/
structure InstallerStat where
  name : String
  leads : Nat
  surveys : Nat
  installs : Nat
  paid : Nat
  revenue : ℚ
  leadToPaidRate : ℚ
  avgRevenuePerLead : ℚ
  leadToSurveyRate : ℚ
  surveyToInstallRate : ℚ
  installToPaidRate : ℚ
deriving DecidableEq, Repr

/-- Cost-per-lead / survey / install for one channel. -/
structure CostPerMetric where
  cpl : ℚ
  cps : ℚ
  cpi : ℚ
deriving DecidableEq, Repr

/-- The revenue / expense / profit summary. -/
structure FinancialSummary where
  revenue : ℚ
  expenses : ℚ
  netProfit : ℚ
  margin : ℚ
deriving DecidableEq, Repr

/-- One row of the expense-type breakdown table. -/
structure ExpenseBreakdownEntry where
  type : String
  amount : ℚ
  percentage : ℚ
deriving DecidableEq, Repr

/-- One row of the revenue-source breakdown table. -/
structure SourceBreakdownEntry where
  source : String
  leads : Nat
  paid : Nat
  revenue : ℚ
  conversion : ℚ
deriving DecidableEq, Repr

/-- The full fetchFinancialData result. -/
structure FinancialBundle where
  summary : FinancialSummary
  fieldMetrics : CostPerMetric
  onlineMetrics : CostPerMetric
  expenseBreakdown : List ExpenseBreakdownEntry
  sourceBreakdown : List SourceBreakdownEntry
deriving DecidableEq, Repr

/-- A monthly financial-trend bucket. -/
structure FinancialTrendEntry where
  month : String
  revenue : ℚ
  expenses : ℚ
  netProfit : ℚ
deriving DecidableEq, Repr

/-! ## Shared small helpers -/

/-- JavaScript truthiness of a nullable string (null, undefined and the
empty string are falsy). -/
def jsTruthy : Option String → Bool
  | some s => s != ""
  | none => false

/-- JavaScript expression s or d for a nullable string s. -/
def jsOrStr (o : Option String) (d : String) : String :=
  match o with
  | some s => if s = "" then d else s
  | none => d

/-- Rows of a successful query outcome, the empty list for a failed one
(used where the source falls back to an empty array). -/
def okD {α : Type} (store : Except String (List α)) : List α :=
  match store with
  | .ok l => l
  | .error _ => []

/-- Does a nullable date column fall inside the closed code range?  SQL
comparisons against null are not satisfied, so none is excluded. -/
def inRange (startC endC : Int) : Option Int → Bool
  | some c => decide (startC ≤ c) && decide (c ≤ endC)
  | none => false

/-- Does a nullable date column satisfy the gte lower bound alone? -/
def geFrom (startC : Int) : Option Int → Bool
  | some c => decide (startC ≤ c)
  | none => false

/-- Is the month bucket of a nullable date column the 0-based index m? -/
def monthIs (m : Nat) : Option Int → Bool
  | some c => monthOfCode c == m
  | none => false

/-- Sum of Lead_Revenue over rows, null coalesced to zero, as in the
reduce((sum, l) => sum + (l.Lead_Revenue || 0), 0) calls. -/
def sumRevenue (rows : List SolarLead) : ℚ :=
  rows.foldl (fun s l => s + l.Lead_Revenue.getD 0) 0

/-- Sum of the amount column over expense rows. -/
def sumAmt (es : List Expense) : ℚ :=
  es.foldl (fun s e => s + e.amount) 0

/-- First-occurrence deduplication, matching the insertion order of keys of
a JavaScript object built by iterating rows. -/
def dedupFirst (names : List String) : List String :=
  names.foldl (fun acc r => if r ∈ acc then acc else acc ++ [r]) []

/-! ## Date Range Resolver (src/services/dateService.ts) -/

/-- The period selector. -/
inductive PeriodFilter where
  | this_month | last_month | this_quarter | this_year
  | last_year | all_time | custom
deriving DecidableEq, Repr

/-- A resolved date range.  The source field named end is called endDate
here because end is reserved in Lean. -/
structure DateRange where
  start : JSDate
  endDate : JSDate
deriving DecidableEq, Repr

/-- date.setMonth(m, d): MakeDay with both a new month and day-of-month. -/
def JSDate.setMonthDate (dt : JSDate) (m d : Int) : JSDate :=
  let (y', m', d') := makeDay dt.year m d
  { dt with year := y', month := m', day := d' }

/-- Parse a caller-supplied YYYY-MM-DD custom bound the way the source does
(split on the dash, Number each part, new Date(y, m-1, d)).  Malformed
input would produce an invalid JS date and is outside the model; it is
mapped to none and the caller keeps the default bound. -/
def parseYMD (s : String) : Option JSDate :=
  match (s.splitOn "-").map (fun p => p.toNat?) with
  | [some y, some m, some d] => some (JSDate.newDate (y : Int) ((m : Int) - 1) (d : Int))
  | _ => none

/-- getDateRange of dateService.ts.  The source reads the clock with
new Date(); the current instant is passed explicitly as now. -/
def getDateRange (period : PeriodFilter) (now : JSDate)
    (customStart customEnd : Option String) : DateRange :=
  let start0 := now.setHours 0 0 0 0
  let end0 := now.setHours 23 59 59 999
  match period with
  | .this_month => ⟨start0.setDate 1, end0⟩
  | .last_month =>
    let s := (start0.setMonth (start0.getMonth - 1)).setDate 1
    let e := (JSDate.newDate now.getFullYear now.getMonth 0).setHours 23 59 59 999
    ⟨s, e⟩
  | .this_quarter => ⟨(start0.setMonth (start0.getMonth / 3 * 3)).setDate 1, end0⟩
  | .this_year => ⟨start0.setMonthDate 0 1, end0⟩
  | .last_year =>
    ⟨JSDate.newDate (now.getFullYear - 1) 0 1,
     (JSDate.newDate (now.getFullYear - 1) 11 31).setHours 23 59 59 999⟩
  | .all_time => ⟨JSDate.newDate 2020 0 1, end0⟩
  | .custom =>
    let s := match customStart.bind parseYMD with
      | some d => d.setHours 0 0 0 0
      | none => start0
    let e := match customEnd.bind parseYMD with
      | some d => d.setHours 23 59 59 999
      | none => end0
    ⟨s, e⟩

/-! ## Solar adapter (src/services/solarService.ts, current revision) -/

namespace Solar

/-- Role filter shared by the KPI queries: a field_rep is always pinned to
its own name; an admin may narrow by a truthy selectedRepFilter; all other
cases are unfiltered. -/
def applyFilter (user : UserProfile) (selectedRepFilter : Option String) :
    SolarLead → Bool :=
  match user.role with
  | .field_rep => fun l => l.Field_Rep == some user.name
  | .admin =>
    match selectedRepFilter with
    | some f => if f = "" then fun _ => true else fun l => l.Field_Rep == some f
    | none => fun _ => true
  | _ => fun _ => true

/-- fetchLeads, lines 604 to 641: Created_At range query plus role scoping;
an account_manager with a falsy name short-circuits to an empty list before
the query runs; a store failure is re-thrown. -/
def fetchLeads (store : Except String (List SolarLead)) (user : UserProfile)
    (startDate endDate : JSDate) (selectedRepFilter : Option String) :
    Except String (List SolarLead) :=
  if user.role == .account_manager && user.name == "" then .ok []
  else
    match store with
    | .error e => .error e
    | .ok table =>
      let roleOk : SolarLead → Bool :=
        match user.role with
        | .field_rep => fun l => l.Field_Rep == some user.name
        | .account_manager => fun l => l.Account_Manager == some user.name
        | .admin =>
          match selectedRepFilter with
          | some f => if f = "" then fun _ => true else fun l => l.Field_Rep == some f
          | none => fun _ => true
      .ok (table.filter (fun l =>
        inRange startDate.code endDate.code l.Created_At && roleOk l))

/-- fetchKPIMetrics, lines 643 to 701 (current revision): one cohort query
by Created_At; every count, including paidCount and revenue, is computed
in memory over that cohort; a store failure yields the all-zero bundle. -/
def fetchKPIMetrics (store : Except String (List SolarLead)) (user : UserProfile)
    (startDate endDate : JSDate) (selectedRepFilter : Option String) : KPIBundle :=
  match store with
  | .error _ => ⟨0, 0, 0, 0, 0⟩
  | .ok table =>
    let leads := table.filter (fun l =>
      inRange startDate.code endDate.code l.Created_At
        && applyFilter user selectedRepFilter l)
    { leadsCount := leads.length
      surveysCount := (leads.filter (fun l => l.Survey_Booked_Date.isSome)).length
      installsCount := (leads.filter (fun l => l.Install_Booked_Date.isSome)).length
      paidCount := (leads.filter (fun l => l.Status == some "Paid")).length
      revenue := sumRevenue (leads.filter (fun l => l.Status == some "Paid")) }

/-- fetchKPIMetrics of the superseded first revision, lines 65 to 131: five
independent event-dated queries; surveys, installs and paid are counted by
the date of the funnel event falling in range (paid also requires the Paid
status), not by cohort.  Failed count queries come back null and coalesce
to zero. -/
def fetchKPIMetricsV1 (store : Except String (List SolarLead)) (user : UserProfile)
    (startDate endDate : JSDate) (selectedRepFilter : Option String) : KPIBundle :=
  match store with
  | .error _ => ⟨0, 0, 0, 0, 0⟩
  | .ok table =>
    let inR := inRange startDate.code endDate.code
    let f := applyFilter user selectedRepFilter
    { leadsCount := (table.filter (fun l => inR l.Created_At && f l)).length
      surveysCount := (table.filter (fun l => inR l.Survey_Booked_Date && f l)).length
      installsCount := (table.filter (fun l => inR l.Install_Booked_Date && f l)).length
      paidCount := (table.filter (fun l =>
        l.Status == some "Paid" && inR l.Paid_Date && f l)).length
      revenue := sumRevenue (table.filter (fun l =>
        l.Status == some "Paid" && inR l.Paid_Date && f l)) }

/-- Grouping step shared by the two leaderboards: first-seen key order,
per-key funnel counts, conversion percentage guarded by leads > 0. -/
def leaderboardFrom (rows : List SolarLead) (key : SolarLead → Option String) :
    List LeaderboardEntry :=
  let names := dedupFirst (rows.filterMap (fun l =>
    match key l with
    | some r => if r = "" then none else some r
    | none => none))
  names.map (fun r =>
    let mine := rows.filter (fun l => key l == some r)
    let leads := mine.length
    let installs := (mine.filter (fun l => l.Install_Booked_Date.isSome)).length
    let paid := (mine.filter (fun l => l.Status == some "Paid")).length
    { name := r, leads := leads, installs := installs, paid := paid
      conversion := if 0 < leads then ((paid : ℚ) / (leads : ℚ)) * 100 else 0 })

/-- fetchLeaderboardStats, lines 703 to 739: all-time rows with a non-null
Field_Rep, grouped by rep, sorted by paid descending (stable), top 10; a
store failure yields the empty list. -/
def fetchLeaderboardStats (store : Except String (List SolarLead)) :
    List LeaderboardEntry :=
  match store with
  | .error _ => []
  | .ok table =>
    let rows := table.filter (fun l => l.Field_Rep.isSome)
    ((leaderboardFrom rows (fun l => l.Field_Rep)).mergeSort
      (fun a b => decide (b.paid ≤ a.paid))).take 10

/-- fetchAccountManagerLeaderboard, lines 741 to 779: rows with a non-null
Account_Manager, optionally restricted by Created_At range, grouped by
account manager, sorted by paid descending, untruncated. -/
def fetchAccountManagerLeaderboard (store : Except String (List SolarLead))
    (startDate endDate : Option JSDate) : List LeaderboardEntry :=
  match store with
  | .error _ => []
  | .ok table =>
    let rows0 := table.filter (fun l => l.Account_Manager.isSome)
    let rows := match startDate, endDate with
      | some s, some e => rows0.filter (fun l => inRange s.code e.code l.Created_At)
      | _, _ => rows0
    (leaderboardFrom rows (fun l => l.Account_Manager)).mergeSort
      (fun a b => decide (b.paid ≤ a.paid))

/-- First day of the month five calendar months before now, the start of
every trailing six-month window (the source mutates a copy of now with
setMonth(getMonth() - 5) then setDate(1)). -/
def sixMonthStart (now : JSDate) : JSDate :=
  (now.setMonth (now.getMonth - 5)).setDate 1

/-- fetchSixMonthTrend, lines 781 to 831: leads bucketed by creation month,
surveys / installs / paid by their own event month, six buckets keyed by
short month name in chronological order; a store failure yields []. -/
def fetchSixMonthTrend (store : Except String (List SolarLead)) (now : JSDate) :
    List MonthlyActivity :=
  match store with
  | .error _ => []
  | .ok table =>
    let start := sixMonthStart now
    let rows := table.filter (fun l => geFrom start.code l.Created_At)
    (List.range 6).map (fun i =>
      let m := (start.month + i) % 12
      { month := monthShort m
        leads := (rows.filter (fun l => monthIs m l.Created_At)).length
        surveys := (rows.filter (fun l => monthIs m l.Survey_Booked_Date)).length
        installs := (rows.filter (fun l => monthIs m l.Install_Booked_Date)).length
        paid := (rows.filter (fun l =>
          l.Status == some "Paid" && monthIs m l.Paid_Date)).length })

/-- fetchRevenueTrend, lines 833 to 869: Paid rows with a non-null Paid_Date
from the window start, revenue summed per paid-event month. -/
def fetchRevenueTrend (store : Except String (List SolarLead)) (now : JSDate) :
    List RevenueTrendData :=
  match store with
  | .error _ => []
  | .ok table =>
    let start := sixMonthStart now
    let rows := table.filter (fun l =>
      l.Status == some "Paid" && geFrom start.code l.Paid_Date)
    (List.range 6).map (fun i =>
      let m := (start.month + i) % 12
      { month := monthShort m
        revenue := sumRevenue (rows.filter (fun l => monthIs m l.Paid_Date)) })

/-- Source label normalization of fetchLeadSourceStats: a falsy label
becomes Unknown, anything else is trimmed. -/
def srcOf (l : SolarLead) : String :=
  match l.Lead_Source with
  | some s => if s = "" then "Unknown" else s.trim
  | none => "Unknown"

/-- fetchLeadSourceStats, lines 871 to 912: paged Created_At range rows
grouped by normalized source label; percentage of the in-range total,
conversion against the per-source count, sorted by count descending.  A
failure on the first page leaves the accumulator empty, so the result is
the empty list. -/
def fetchLeadSourceStats (store : Except String (List SolarLead))
    (startDate endDate : JSDate) : List LeadSourceStat :=
  let allRows := (okD store).filter (fun l =>
    inRange startDate.code endDate.code l.Created_At)
  let total := allRows.length
  let names := dedupFirst (allRows.map srcOf)
  (names.map (fun src =>
    let cnt := (allRows.filter (fun l => srcOf l == src)).length
    let paid := (allRows.filter (fun l =>
      srcOf l == src && l.Status == some "Paid")).length
    { source := src, count := cnt
      percentage := if 0 < total then ((cnt : ℚ) / (total : ℚ)) * 100 else 0
      conversion := if 0 < cnt then ((paid : ℚ) / (cnt : ℚ)) * 100 else 0 })).mergeSort
    (fun a b => decide (b.count ≤ a.count))

/-- fetchInstallerPerformance, lines 914 to 972: Created_At range rows
grouped by installer (falsy becomes Unassigned); the rate denominators are
replaced by 1 when zero (the stat.leads or 1 idiom) and the rates are not
clamped; sorted by revenue descending. -/
def fetchInstallerPerformance (store : Except String (List SolarLead))
    (startDate endDate : JSDate) : List InstallerStat :=
  match store with
  | .error _ => []
  | .ok table =>
    let rows := table.filter (fun l =>
      inRange startDate.code endDate.code l.Created_At)
    let names := dedupFirst (rows.map (fun l => jsOrStr l.Installer "Unassigned"))
    (names.map (fun n =>
      let mine := rows.filter (fun l => jsOrStr l.Installer "Unassigned" == n)
      let leads := mine.length
      let surveys := (mine.filter (fun l => l.Survey_Booked_Date.isSome)).length
      let installs := (mine.filter (fun l => l.Install_Booked_Date.isSome)).length
      let paidRows := mine.filter (fun l => l.Status == some "Paid")
      let paid := paidRows.length
      let revenue := sumRevenue paidRows
      let ld : ℚ := if leads = 0 then 1 else (leads : ℚ)
      let sv : ℚ := if surveys = 0 then 1 else (surveys : ℚ)
      let ins : ℚ := if installs = 0 then 1 else (installs : ℚ)
      { name := n, leads := leads, surveys := surveys, installs := installs
        paid := paid, revenue := revenue
        leadToPaidRate := (paid : ℚ) / ld * 100
        avgRevenuePerLead := revenue / ld
        leadToSurveyRate := (surveys : ℚ) / ld * 100
        surveyToInstallRate := (installs : ℚ) / sv * 100
        installToPaidRate := (paid : ℚ) / ins * 100 })).mergeSort
      (fun a b => decide (b.revenue ≤ a.revenue))

/-- Field-channel expense bucket of fetchFinancialData: direct Field
expenses plus half of the Split total. -/
def fieldExpenses (expenseData : List Expense) : ℚ :=
  sumAmt (expenseData.filter (fun e => e.expense_type == "Field"))
    + sumAmt (expenseData.filter (fun e => e.expense_type == "Split")) / 2

/-- Online-channel expense bucket of fetchFinancialData: direct Online
expenses plus half of the Split total. -/
def onlineExpenses (expenseData : List Expense) : ℚ :=
  sumAmt (expenseData.filter (fun e => e.expense_type == "Online"))
    + sumAmt (expenseData.filter (fun e => e.expense_type == "Split")) / 2

/-- Per-channel cost-per-metric of fetchFinancialData: each denominator is
used only when positive. -/
def channelMetrics (exp : ℚ) (leadsCount surveysCount installsCount : Nat) :
    CostPerMetric :=
  { cpl := if 0 < leadsCount then exp / (leadsCount : ℚ) else 0
    cps := if 0 < surveysCount then exp / (surveysCount : ℚ) else 0
    cpi := if 0 < installsCount then exp / (installsCount : ℚ) else 0 }

/-- fetchFinancialData, lines 976 to 1105: expense ledger joined against
revenue from Paid-dated rows and channel cohorts from Created_At rows; the
three queries fail independently and each failure falls back to an empty
row set.  Channel buckets are exact label matches on Lead_Source. -/
def fetchFinancialData (expStore : Except String (List Expense))
    (leadsStore revStore : Except String (List SolarLead))
    (startDate endDate : JSDate) : FinancialBundle :=
  let expenseData := (okD expStore).filter (fun e =>
    decide (startDate.code ≤ e.transaction_date)
      && decide (e.transaction_date ≤ endDate.code))
  let leadsData := (okD leadsStore).filter (fun l =>
    inRange startDate.code endDate.code l.Created_At)
  let revenueLeads := (okD revStore).filter (fun l =>
    l.Status == some "Paid" && inRange startDate.code endDate.code l.Paid_Date)
  let totalRevenue := sumRevenue revenueLeads
  let totalExpenses := sumAmt expenseData
  let netProfit := totalRevenue - totalExpenses
  let margin := if 0 < totalRevenue then netProfit / totalRevenue * 100 else 0
  let fieldExp := fieldExpenses expenseData
  let onlineExp := onlineExpenses expenseData
  let fieldLeads := leadsData.filter (fun l => l.Lead_Source == some "Field Rep")
  let fieldLeadsCount := fieldLeads.length
  let fieldSurveysCount := (fieldLeads.filter (fun l => l.Survey_Booked_Date.isSome)).length
  let fieldInstallsCount := (fieldLeads.filter (fun l => l.Install_Booked_Date.isSome)).length
  let fieldPaidCount := (fieldLeads.filter (fun l => l.Status == some "Paid")).length
  let fieldRevenue := sumRevenue (fieldLeads.filter (fun l => l.Status == some "Paid"))
  let onlineLeads := leadsData.filter (fun l => l.Lead_Source == some "Online Ads")
  let onlineLeadsCount := onlineLeads.length
  let onlineSurveysCount := (onlineLeads.filter (fun l => l.Survey_Booked_Date.isSome)).length
  let onlineInstallsCount := (onlineLeads.filter (fun l => l.Install_Booked_Date.isSome)).length
  let onlinePaidCount := (onlineLeads.filter (fun l => l.Status == some "Paid")).length
  let onlineRevenue := sumRevenue (onlineLeads.filter (fun l => l.Status == some "Paid"))
  { summary := { revenue := totalRevenue, expenses := totalExpenses
                 netProfit := netProfit, margin := margin }
    fieldMetrics := channelMetrics fieldExp fieldLeadsCount fieldSurveysCount fieldInstallsCount
    onlineMetrics := channelMetrics onlineExp onlineLeadsCount onlineSurveysCount onlineInstallsCount
    expenseBreakdown :=
      ((["Field", "Online", "Split", "Salaries", "Software", "Other"]).map (fun ty =>
        let amount := sumAmt (expenseData.filter (fun e => e.expense_type == ty))
        { type := ty, amount := amount
          percentage := if 0 < totalExpenses then amount / totalExpenses * 100 else 0 })).mergeSort
        (fun a b => decide (b.amount ≤ a.amount))
    sourceBreakdown :=
      [{ source := "Field Rep", leads := fieldLeadsCount, paid := fieldPaidCount
         revenue := fieldRevenue
         conversion := if 0 < fieldLeadsCount
           then ((fieldPaidCount : ℚ) / (fieldLeadsCount : ℚ)) * 100 else 0 },
       { source := "Online Ads", leads := onlineLeadsCount, paid := onlinePaidCount
         revenue := onlineRevenue
         conversion := if 0 < onlineLeadsCount
           then ((onlinePaidCount : ℚ) / (onlineLeadsCount : ℚ)) * 100 else 0 }] }

/-- fetchFinancialTrend, lines 1107 to 1168: six-month buckets joining Paid
revenue by paid month against ledger expenses by transaction month; failed
queries contribute nothing and leave the zero-filled buckets. -/
def fetchFinancialTrend (revStore : Except String (List SolarLead))
    (expStore : Except String (List Expense)) (now : JSDate) :
    List FinancialTrendEntry :=
  let start := sixMonthStart now
  let revRows := (okD revStore).filter (fun l =>
    l.Status == some "Paid" && geFrom start.code l.Paid_Date)
  let expRows := (okD expStore).filter (fun e => decide (start.code ≤ e.transaction_date))
  (List.range 6).map (fun i =>
    let m := (start.month + i) % 12
    let revenue := sumRevenue (revRows.filter (fun l => monthIs m l.Paid_Date))
    let expenses := sumAmt (expRows.filter (fun e => monthOfCode e.transaction_date == m))
    { month := monthShort m, revenue := revenue, expenses := expenses
      netProfit := revenue - expenses })

end Solar

/-! ## ECO4 adapter (src/services/eco4Service.ts) -/

/-- JavaScript subtraction on JSNum. -/
def JSNum.sub : JSNum → JSNum → JSNum
  | .nan, _ => .nan
  | _, .nan => .nan
  | .inf s, .inf t => if s = t then .nan else .inf s
  | .inf s, .val _ => .inf s
  | .val _, .inf t => .inf !t
  | .val a, .val b => .val (a - b)

/-- JavaScript multiplication on JSNum. -/
def JSNum.mul : JSNum → JSNum → JSNum
  | .nan, _ => .nan
  | _, .nan => .nan
  | .inf s, .inf t => .inf (s != t)
  | .inf s, .val q => if q = 0 then .nan else .inf (s != decide (q < 0))
  | .val q, .inf t => if q = 0 then .nan else .inf (t != decide (q < 0))
  | .val a, .val b => .val (a * b)

/-- JavaScript division on JSNum (division by the positive zero of the
model follows the q / +0 rule). -/
def JSNum.div : JSNum → JSNum → JSNum
  | .nan, _ => .nan
  | _, .nan => .nan
  | .inf _, .inf _ => .nan
  | .inf s, .val q => .inf (s != decide (q < 0))
  | .val _, .inf _ => .val 0
  | .val a, .val b =>
    if b = 0 then (if a = 0 then .nan else .inf (decide (a < 0)))
    else .val (a / b)

/-- JavaScript comparison x greater than 0 on JSNum. -/
def JSNum.gt0 : JSNum → Bool
  | .nan => false
  | .inf s => !s
  | .val q => decide (0 < q)

/-- A raw row of the ECO4_Leads table. -/
structure ECO4Row where
  id : Option Int
  Lead_Created_Date : Option Int
  Survey_Date : Option Int
  Install_Date : Option Int
  Valour_Paid_Date : Option Int
  Overall_Status : Option String
  Payment_Total_Net : CVal
  Current_Installer : Option String
  Lead_Generation : Option String
  Customer_Name : Option String
  Customer_Phone : Option String
  Customer_Email : Option String
  Address : Option String
  Postcode : Option String
deriving DecidableEq, Repr

/-- A blank ECO4 row for building concrete tables. -/
def blankRow : ECO4Row :=
  ⟨none, none, none, none, none, none, .null, none, none, none, none, none,
   none, none⟩

/-- The KPI bundle of the ECO4 adapter; its revenue is a raw JS number
because it sums parseCurrency results, which can be NaN. -/
structure ECO4KPIBundle where
  leadsCount : Nat
  surveysCount : Nat
  installsCount : Nat
  paidCount : Nat
  revenue : JSNum
deriving DecidableEq, Repr

/-- The financial summary of the ECO4 adapter (revenue-derived members are
raw JS numbers). -/
structure ECO4FinancialSummary where
  revenue : JSNum
  expenses : ℚ
  netProfit : JSNum
  margin : JSNum
deriving DecidableEq, Repr

/-- One row of the ECO4 revenue-source breakdown. -/
structure ECO4SourceBreakdownEntry where
  source : String
  leads : Nat
  paid : Nat
  revenue : JSNum
  conversion : ℚ
deriving DecidableEq, Repr

/-- The full ECO4 fetchFinancialData result. -/
structure ECO4FinancialBundle where
  summary : ECO4FinancialSummary
  fieldMetrics : CostPerMetric
  onlineMetrics : CostPerMetric
  expenseBreakdown : List ExpenseBreakdownEntry
  sourceBreakdown : List ECO4SourceBreakdownEntry
deriving DecidableEq, Repr

namespace ECO4

/-- fetchAllPages, lines 12 to 59: paged reads of one table.  Outside
all-time mode rows are restricted to the closed date range on the chosen
column; in all-time mode the filter is skipped entirely, except that a
non-creation column must still be non-null.  The safety cap stops after
the page starting at offset 100000, so at most 101000 rows are returned.
isLeadCreated says whether the chosen column is Lead_Created_Date. -/
def fetchAllPages (table : List ECO4Row) (dateCol : ECO4Row → Option Int)
    (isLeadCreated : Bool) (startDate endDate : JSDate) (isAllTime : Bool)
    (extraFilter : ECO4Row → Bool) : List ECO4Row :=
  (table.filter (fun r =>
    (if !isAllTime then inRange startDate.code endDate.code (dateCol r)
     else if !isLeadCreated then (dateCol r).isSome
     else true)
      && extraFilter r)).take 101000

/-- JavaScript expression s or null for a nullable string (an empty string
collapses to null). -/
def jsOrNull (o : Option String) : Option String :=
  match o with
  | some s => if s = "" then none else some s
  | none => none

/-- Revenue column of a mapped lead.  parseCurrency returns a JS number;
a non-finite result cannot be carried by the rational-valued column and is
modelled as null.  Nothing proved in this file reads the field. -/
def revenueOfParsed : JSNum → Option ℚ
  | .val q => some q
  | _ => none

/-- mapECO4ToLead, lines 62 to 85.  The Math.random id fallback for rows
with a falsy id is modelled by the caller-supplied randomId. -/
def mapECO4ToLead (randomId : Int) (row : ECO4Row) : SolarLead :=
  { id := match row.id with
      | some i => if i = 0 then randomId else i
      | none => randomId
    Created_At := row.Lead_Created_Date.or row.Valour_Paid_Date
    Customer_Name := some (jsOrStr row.Customer_Name (jsOrStr row.Address "ECO4 Customer"))
    Customer_Tel := jsOrNull row.Customer_Phone
    Customer_Email := jsOrNull row.Customer_Email
    First_Line_Of_Address := row.Address
    Postcode := row.Postcode
    Property_Type := none
    Lead_Source := some (jsOrStr row.Lead_Generation "ECO4")
    Field_Rep := none
    Account_Manager := none
    Installer := row.Current_Installer
    Status := some (jsOrStr row.Overall_Status "Pending")
    Survey_Booked_Date := row.Survey_Date
    Survey_Complete_Date := row.Survey_Date
    Install_Booked_Date := row.Install_Date
    Paid_Date := row.Valour_Paid_Date
    Lead_Cost := none
    Lead_Revenue := revenueOfParsed (parseCurrency row.Payment_Total_Net)
    Commission_Amount := none
    Commission_Paid := none
    Commission_Paid_Date := none }

/-- Descending Lead_Created_Date order of the fetchLeads page (Postgres
descending order puts nulls first). -/
def createdDescLe (a b : ECO4Row) : Bool :=
  match a.Lead_Created_Date, b.Lead_Created_Date with
  | none, _ => true
  | some _, none => false
  | some x, some y => decide (y ≤ x)

/-- The date condition of the fetchLeads query: skipped entirely in
all-time mode, a closed Lead_Created_Date range otherwise. -/
def leadsDateOk (isAllTime : Bool) (startDate endDate : JSDate)
    (r : ECO4Row) : Bool :=
  if isAllTime then true
  else inRange startDate.code endDate.code r.Lead_Created_Date

/-- fetchLeads, lines 102 to 123: non-admins get an empty list before any
query runs; admins get a single page of at most 1000 rows, ordered by
Lead_Created_Date descending, mapped to the canonical shape; a store
failure is re-thrown.  freshId supplies the per-row Math.random id
fallback. -/
def fetchLeads (store : Except String (List ECO4Row)) (user : UserProfile)
    (startDate endDate : JSDate) (selectedRepFilter : Option String)
    (freshId : Nat → Int) : Except String (List SolarLead) :=
  if user.role != .admin then .ok []
  else
    let isAllTime := startDate.getFullYear == 2020
    match store with
    | .error e => .error e
    | .ok table =>
      let matching := table.filter (leadsDateOk isAllTime startDate endDate)
      .ok (((matching.mergeSort createdDescLe).take 1000).mapIdx
        (fun i r => mapECO4ToLead (freshId i) r))

/-- The fetchLeads result set demanded by the spec sentence on the sentinel
year: the same pipeline with the date filter skipped entirely (no lower and
no upper bound).  Written from the spec's words for the refinement
comparison of the sentinel claim. -/
def fetchLeadsNoDateFilter (store : Except String (List ECO4Row))
    (user : UserProfile) (freshId : Nat → Int) :
    Except String (List SolarLead) :=
  if user.role != .admin then .ok []
  else
    match store with
    | .error e => .error e
    | .ok table =>
      .ok (((table.mergeSort createdDescLe).take 1000).mapIdx
        (fun i r => mapECO4ToLead (freshId i) r))

/-- fetchKPIMetrics, lines 125 to 174: non-admins get the all-zero bundle;
admins get four head counts (cohort for leads, event-dated for surveys,
installs and paid, with the paid count further restricted to the PAID
status) and a revenue sum of parsed Payment_Total_Net over paid-dated PAID
rows.  In all-time mode every date restriction degrades to a non-null
check, except the creation count which is unrestricted.  Failed head
counts come back null and coalesce to zero. -/
def fetchKPIMetrics (store : Except String (List ECO4Row)) (user : UserProfile)
    (startDate endDate : JSDate) (selectedRepFilter : Option String) :
    ECO4KPIBundle :=
  if user.role != .admin then ⟨0, 0, 0, 0, .val 0⟩
  else
    let isAllTime := startDate.getFullYear == 2020
    let table := okD store
    let inR := inRange startDate.code endDate.code
    let leadsCount :=
      (if isAllTime then table
       else table.filter (fun r => inR r.Lead_Created_Date)).length
    let surveysCount := (table.filter (fun r =>
      if isAllTime then r.Survey_Date.isSome else inR r.Survey_Date)).length
    let installsCount := (table.filter (fun r =>
      if isAllTime then r.Install_Date.isSome else inR r.Install_Date)).length
    let paidCount := (table.filter (fun r =>
      r.Overall_Status == some "PAID"
        && (if isAllTime then r.Valour_Paid_Date.isSome
            else inR r.Valour_Paid_Date))).length
    let revRows := fetchAllPages table (fun r => r.Valour_Paid_Date) false
      startDate endDate isAllTime (fun r => r.Overall_Status == some "PAID")
    let revenue := revRows.foldl
      (fun s r => s.add (parseCurrency r.Payment_Total_Net)) (.val 0)
    ⟨leadsCount, surveysCount, installsCount, paidCount, revenue⟩

/-- Installer-name normalization of fetchInstallerPerformance. -/
def instOf (r : ECO4Row) : String :=
  match r.Current_Installer with
  | some s => if s = "" then "Unassigned" else s.trim
  | none => "Unassigned"

/-- fetchInstallerPerformance, lines 308 to 363: four paged row sets (by
creation, survey, install and paid date, the last restricted to PAID),
grouped by normalized installer name in first-seen order across the four
sets; every derived rate uses its own denominator, guarded by zero and
clamped to at most 100 with Math.min.  The revenue sum can be NaN, which
the rational-valued InstallerStat field cannot carry; it is modelled by
summing the finite parts (the four rates and counts, the subject of every
property proved about this function, never depend on it). -/
def fetchInstallerPerformance (table : List ECO4Row)
    (startDate endDate : JSDate) : List InstallerStat :=
  let isAllTime := startDate.getFullYear == 2020
  let leadsRows := fetchAllPages table (fun r => r.Lead_Created_Date) true
    startDate endDate isAllTime (fun _ => true)
  let surveysRows := fetchAllPages table (fun r => r.Survey_Date) false
    startDate endDate isAllTime (fun _ => true)
  let installsRows := fetchAllPages table (fun r => r.Install_Date) false
    startDate endDate isAllTime (fun _ => true)
  let finRows := fetchAllPages table (fun r => r.Valour_Paid_Date) false
    startDate endDate isAllTime (fun r => r.Overall_Status == some "PAID")
  let names := dedupFirst (leadsRows.map instOf ++ surveysRows.map instOf
    ++ installsRows.map instOf ++ finRows.map instOf)
  (names.map (fun n =>
    let lCount := (leadsRows.filter (fun r => instOf r == n)).length
    let sCount := (surveysRows.filter (fun r => instOf r == n)).length
    let iCount := (installsRows.filter (fun r => instOf r == n)).length
    let myFin := finRows.filter (fun r => instOf r == n)
    let pCount := myFin.length
    let rev := myFin.foldl (fun s r =>
      s + (revenueOfParsed (parseCurrency r.Payment_Total_Net)).getD 0) 0
    { name := n, leads := lCount, surveys := sCount, installs := iCount
      paid := pCount, revenue := rev
      leadToPaidRate :=
        min (if 0 < lCount then ((pCount : ℚ) / (lCount : ℚ)) * 100 else 0) 100
      avgRevenuePerLead := if 0 < lCount then rev / (lCount : ℚ) else 0
      leadToSurveyRate :=
        min (if 0 < lCount then ((sCount : ℚ) / (lCount : ℚ)) * 100 else 0) 100
      surveyToInstallRate :=
        min (if 0 < sCount then ((iCount : ℚ) / (sCount : ℚ)) * 100 else 0) 100
      installToPaidRate :=
        min (if 0 < iCount then ((pCount : ℚ) / (iCount : ℚ)) * 100 else 0) 100 })).mergeSort
    (fun a b => decide (b.revenue ≤ a.revenue))

/-- fetchFinancialData, lines 365 to 421: one expense-ledger page (range
0 to 9999, filtered by transaction date without a sentinel check), paged
ECO4 row sets for the funnel counts and PAID revenue; both channel metric
slots receive the same bucket computed from the undivided expense total,
and the single source-breakdown row carries a conversion clamped to 100. -/
def fetchFinancialData (expStore : Except String (List Expense))
    (table : List ECO4Row) (startDate endDate : JSDate) : ECO4FinancialBundle :=
  let isAllTime := startDate.getFullYear == 2020
  let expenseData := ((okD expStore).filter (fun e =>
    decide (startDate.code ≤ e.transaction_date)
      && decide (e.transaction_date ≤ endDate.code))).take 10000
  let leadsRes := fetchAllPages table (fun r => r.Lead_Created_Date) true
    startDate endDate isAllTime (fun _ => true)
  let surveysRes := fetchAllPages table (fun r => r.Survey_Date) false
    startDate endDate isAllTime (fun _ => true)
  let installsRes := fetchAllPages table (fun r => r.Install_Date) false
    startDate endDate isAllTime (fun _ => true)
  let revenueRes := fetchAllPages table (fun r => r.Valour_Paid_Date) false
    startDate endDate isAllTime (fun r => r.Overall_Status == some "PAID")
  let totalExpenses := sumAmt expenseData
  let totalRevenue := revenueRes.foldl
    (fun s r => s.add (parseCurrency r.Payment_Total_Net)) (.val 0)
  let netProfit := totalRevenue.sub (.val totalExpenses)
  let margin := if totalRevenue.gt0
    then (netProfit.div totalRevenue).mul (.val 100) else .val 0
  let leadsCount := leadsRes.length
  let surveysCount := surveysRes.length
  let installsCount := installsRes.length
  let paidCount := revenueRes.length
  let eco4Metrics := Solar.channelMetrics totalExpenses leadsCount surveysCount installsCount
  { summary := { revenue := totalRevenue, expenses := totalExpenses
                 netProfit := netProfit, margin := margin }
    fieldMetrics := eco4Metrics
    onlineMetrics := eco4Metrics
    expenseBreakdown :=
      ((["Field", "Online", "Split", "Salaries", "Software", "Other"]).map (fun ty =>
        let amount := sumAmt (expenseData.filter (fun e => e.expense_type == ty))
        { type := ty, amount := amount
          percentage := if 0 < totalExpenses then amount / totalExpenses * 100 else 0 })).mergeSort
        (fun a b => decide (b.amount ≤ a.amount))
    sourceBreakdown :=
      [{ source := "ECO4", leads := leadsCount, paid := paidCount
         revenue := totalRevenue
         conversion := min (if 0 < leadsCount
           then ((paidCount : ℚ) / (leadsCount : ℚ)) * 100 else 0) 100 }] }

end ECO4

/-! ## Concrete fixtures used by the claim theorems -/

/-- An admin user. -/
def adminUser : UserProfile := ⟨"u1", "admin@vh", "Admin", .admin⟩

/-- A field_rep user named Alice. -/
def aliceRep : UserProfile := ⟨"u2", "alice@vh", "Alice", .field_rep⟩

/-- Midnight code of a January 2025 day. -/
def jan25 (d : Int) : Int := dCode 2025 0 d

/-- Midnight code of a February 2025 day. -/
def feb25 (d : Int) : Int := dCode 2025 1 d

/-- Start of January 2025. -/
def janStart : JSDate := JSDate.newDate 2025 0 1

/-- Last instant of January 2025. -/
def janEnd : JSDate := (JSDate.newDate 2025 0 31).setHours 23 59 59 999

/-- Start of February 2025. -/
def febStart : JSDate := JSDate.newDate 2025 1 1

/-- Last instant of February 2025. -/
def febEnd : JSDate := (JSDate.newDate 2025 1 28).setHours 23 59 59 999

/-- A lead of the cohort scenario: created at cd, with optional
survey-booked and paid dates and a status. -/
def mkScenarioLead (cd : Int) (sv pd : Option Int) (st : String) : SolarLead :=
  { blankLead with
    Created_At := some cd
    Survey_Booked_Date := sv
    Paid_Date := pd
    Status := some st
    Lead_Revenue := some 100 }

/-- The cohort-versus-event scenario table: ten leads created in January
2025; six carry a survey-booked date (four in January, two in February);
three are Paid with February paid dates. -/
def cohortDb : List SolarLead :=
  [mkScenarioLead (jan25 2) (some (jan25 10)) none "New",
   mkScenarioLead (jan25 3) (some (jan25 11)) none "New",
   mkScenarioLead (jan25 4) (some (jan25 12)) none "New",
   mkScenarioLead (jan25 5) (some (jan25 13)) none "New",
   mkScenarioLead (jan25 6) (some (feb25 2)) (some (feb25 20)) "Paid",
   mkScenarioLead (jan25 7) (some (feb25 3)) (some (feb25 21)) "Paid",
   mkScenarioLead (jan25 8) none (some (feb25 22)) "Paid",
   mkScenarioLead (jan25 9) none none "New",
   mkScenarioLead (jan25 10) none none "New",
   mkScenarioLead (jan25 11) none none "New"]

/-- A January lead assigned to Alice. -/
def aliceLead : SolarLead :=
  { blankLead with
    Created_At := some (jan25 4)
    Field_Rep := some "Alice" }

/-- A January lead assigned to Bob. -/
def bobLead : SolarLead :=
  { blankLead with
    Created_At := some (jan25 5)
    Field_Rep := some "Bob" }

/-- A lead created in 2019, before the sentinel epoch. -/
def lead2019 : SolarLead :=
  { blankLead with Created_At := some (dCode 2019 5 1) }

/-- The sentinel start date produced by the all_time period. -/
def sentinel2020 : JSDate := JSDate.newDate 2020 0 1

/-- An ECO4 row created in 2019, before the sentinel epoch. -/
def eco4Row2019 : ECO4Row :=
  { blankRow with
    id := some 7
    Lead_Created_Date := some (dCode 2019 5 1) }

/-- An installer cohort row with both a survey and an install date. -/
def installerRow1 : SolarLead :=
  { blankLead with
    Created_At := some (jan25 2)
    Installer := some "Bob"
    Survey_Booked_Date := some (jan25 5)
    Install_Booked_Date := some (jan25 6) }

/-- An installer cohort row with an install date but no survey date. -/
def installerRow2 : SolarLead :=
  { blankLead with
    Created_At := some (jan25 3)
    Installer := some "Bob"
    Install_Booked_Date := some (jan25 7) }

/-- A lone Split-category ledger expense of 1000. -/
def splitExpense : Expense := ⟨1, jan25 5, 1000, "Split"⟩

/-- An ECO4 row created in the January 2025 range. -/
def eco4JanRow : ECO4Row :=
  { blankRow with
    id := some 3
    Lead_Created_Date := some (jan25 4) }

/-- March 31, 2026 at noon, a day on which the last_month resolution
overflows. -/
def march31 : JSDate := ⟨2026, 2, 31, 12, 0, 0, 0⟩

/-- March 15, 2026 at noon. -/
def march15 : JSDate := ⟨2026, 2, 15, 12, 0, 0, 0⟩

/-- An in-range ECO4 row for the truncation witness. -/
def truncRow : ECO4Row :=
  { blankRow with
    id := some 1
    Lead_Created_Date := some (jan25 15) }

/-- A table of 1001 matching rows, one more than the fetchLeads page. -/
def bigTable : List ECO4Row := List.replicate 1001 truncRow

/-- The Solar fetchLeads result set demanded by the spec's sentinel
sentence: the same scoped query with the lower date bound dropped.
Written from the spec's words (a query with no lower date bound) for
comparison with the implementation, which never drops the bound. -/
def Solar.fetchLeadsNoLowerBound (store : Except String (List SolarLead))
    (user : UserProfile) (endDate : JSDate) (selectedRepFilter : Option String) :
    Except String (List SolarLead) :=
  if user.role == .account_manager && user.name == "" then .ok []
  else
    match store with
    | .error e => .error e
    | .ok table =>
      let roleOk : SolarLead → Bool :=
        match user.role with
        | .field_rep => fun l => l.Field_Rep == some user.name
        | .account_manager => fun l => l.Account_Manager == some user.name
        | .admin =>
          match selectedRepFilter with
          | some f => if f = "" then fun _ => true else fun l => l.Field_Rep == some f
          | none => fun _ => true
      .ok (table.filter (fun l =>
        (match l.Created_At with
         | some c => decide (c ≤ endDate.code)
         | none => false) && roleOk l))

/-! ## Shared helper lemmas -/

/-- A stable sort does not change which elements are present, so a Bool
predicate holds of all sorted elements exactly when it holds of all input
elements. -/
theorem all_mergeSort (l : List α) (le : α → α → Bool) (p : α → Bool) :
    (l.mergeSort le).all p = l.all p := by
  have h := List.mergeSort_perm l le
  rw [Bool.eq_iff_iff, List.all_eq_true, List.all_eq_true]
  exact ⟨fun ha x hx => ha x (h.mem_iff.mpr hx), fun ha x hx => ha x (h.mem_iff.mp hx)⟩

/-- Sorting preserves length. -/
theorem mergeSort_length (l : List α) (le : α → α → Bool) :
    (l.mergeSort le).length = l.length :=
  (List.mergeSort_perm l le).length_eq

/-- Filtering a replicated list by a predicate the element satisfies keeps
every copy. -/
theorem filter_replicate_pos (p : α → Bool) (a : α) (h : p a = true) (n : Nat) :
    (List.replicate n a).filter p = List.replicate n a := by
  simp [List.filter_replicate, h]

/-! ## Claim theorems -/

/-- C1, counterexample: on the documented scenario (ten January leads, six
with survey-booked dates of which two fall in February, three Paid with
February paid dates) the current Solar fetchKPIMetrics returns
leadsCount 10 and surveysCount 6 for a January-only range as the claim
says, but its paidCount for that range is not 0: the paid count is
cohort-based in this adapter, so the claim's event-based figure fails. -/
theorem c1_cohort_event_counterexample :
    (Solar.fetchKPIMetrics (.ok cohortDb) adminUser janStart janEnd none).leadsCount = 10
    ∧ (Solar.fetchKPIMetrics (.ok cohortDb) adminUser janStart janEnd none).surveysCount = 6
    ∧ ¬((Solar.fetchKPIMetrics (.ok cohortDb) adminUser janStart janEnd none).paidCount = 0) :=
  ⟨by decide, by decide, by decide⟩

/-- C1, amended: the current Solar fetchKPIMetrics is cohort-based for
every count: on the scenario, the January-only range yields
leadsCount 10, surveysCount 6 and paidCount 3, and the February-only
range yields leadsCount 0 and paidCount 0.  The event-based paid count
the claim describes (0 for January, 3 for February) holds only of the
superseded first revision, which also counts surveys by event date
(4 for January), not by cohort (6). -/
theorem c1_cohort_event_amended :
    (Solar.fetchKPIMetrics (.ok cohortDb) adminUser janStart janEnd none).leadsCount = 10
    ∧ (Solar.fetchKPIMetrics (.ok cohortDb) adminUser janStart janEnd none).surveysCount = 6
    ∧ (Solar.fetchKPIMetrics (.ok cohortDb) adminUser janStart janEnd none).paidCount = 3
    ∧ (Solar.fetchKPIMetrics (.ok cohortDb) adminUser febStart febEnd none).leadsCount = 0
    ∧ (Solar.fetchKPIMetrics (.ok cohortDb) adminUser febStart febEnd none).paidCount = 0
    ∧ (Solar.fetchKPIMetricsV1 (.ok cohortDb) adminUser janStart janEnd none).leadsCount = 10
    ∧ (Solar.fetchKPIMetricsV1 (.ok cohortDb) adminUser janStart janEnd none).surveysCount = 4
    ∧ (Solar.fetchKPIMetricsV1 (.ok cohortDb) adminUser janStart janEnd none).paidCount = 0
    ∧ (Solar.fetchKPIMetricsV1 (.ok cohortDb) adminUser febStart febEnd none).paidCount = 3 :=
  ⟨by decide, by decide, by decide, by decide, by decide, by decide, by decide,
   by decide, by decide⟩

/-- C2: for a field_rep user, every record of a successful Solar fetchLeads
carries the user's own name in Field_Rep, whatever selectedRepFilter was
passed; self-scope cannot be widened. -/
theorem c2_field_rep_scope (table : List SolarLead) (user : UserProfile)
    (startDate endDate : JSDate) (selectedRepFilter : Option String)
    (h : user.role = .field_rep) :
    (okD (Solar.fetchLeads (.ok table) user startDate endDate selectedRepFilter)).all
      (fun l => l.Field_Rep == some user.name) = true := by
  unfold Solar.fetchLeads
  rw [h]
  rw [show (Role.field_rep == Role.account_manager && user.name == "") = false from rfl]
  simp only [Bool.false_eq_true, if_false, okD]
  rw [List.all_eq_true]
  intro l hl
  rw [List.mem_filter] at hl
  have hb := hl.2
  rw [Bool.and_eq_true] at hb
  exact hb.2

/-- C2, witness: Alice the field_rep queries with an admin-style override
naming Bob, and still every returned record is assigned to Alice. -/
theorem c2_field_rep_scope_witness :
    aliceRep.role = .field_rep
    ∧ (okD (Solar.fetchLeads (.ok [aliceLead, bobLead]) aliceRep janStart janEnd
        (some "Bob"))).all (fun l => l.Field_Rep == some aliceRep.name) = true :=
  ⟨rfl, c2_field_rep_scope [aliceLead, bobLead] aliceRep janStart janEnd
    (some "Bob") rfl⟩

/-- C4: evaluating getDateRange at the failing instant.  On March 31, 2026
the last_month range resolves to start = March 1, 2026 (setMonth lands on
February 31, which normalizes into March 3, and setDate(1) then yields
March 1), not the February 1 the claim requires; the end bound is the
correct last instant of February 28.  On March 15 the claim's February 1
start does hold, so the defect is confined to the overflow days 29 to 31. -/
theorem c4_last_month_march_overflow :
    getDateRange .last_month march31 none none
      = ⟨⟨2026, 2, 1, 0, 0, 0, 0⟩, ⟨2026, 1, 28, 23, 59, 59, 999⟩⟩
    ∧ (⟨2026, 2, 1, 0, 0, 0, 0⟩ : JSDate) ≠ ⟨2026, 1, 1, 0, 0, 0, 0⟩
    ∧ (getDateRange .last_month march15 none none).start = ⟨2026, 1, 1, 0, 0, 0, 0⟩ :=
  ⟨by decide, by decide, by decide⟩

/-- C6: the ECO4 adapter fails closed for every non-admin role: fetchLeads
returns the empty list and fetchKPIMetrics the all-zero bundle, without
querying the store and without substituting any identity. -/
theorem c6_eco4_non_admin_empty (store : Except String (List ECO4Row))
    (user : UserProfile) (startDate endDate : JSDate)
    (selectedRepFilter : Option String) (freshId : Nat → Int)
    (h : user.role ≠ .admin) :
    ECO4.fetchLeads store user startDate endDate selectedRepFilter freshId = .ok []
    ∧ ECO4.fetchKPIMetrics store user startDate endDate selectedRepFilter
        = ⟨0, 0, 0, 0, .val 0⟩ := by
  have hb : (user.role != Role.admin) = true := by
    revert h; cases user.role <;> decide
  rw [ECO4.fetchLeads, ECO4.fetchKPIMetrics, if_pos hb, if_pos hb]
  exact ⟨rfl, rfl⟩

/-- C6, witness: a field_rep user receives the empty list and the zero
bundle from the ECO4 adapter even over a populated store. -/
theorem c6_eco4_non_admin_empty_witness :
    aliceRep.role ≠ .admin
    ∧ ECO4.fetchLeads (.ok [eco4JanRow]) aliceRep janStart janEnd none
        (fun _ => 0) = .ok []
    ∧ ECO4.fetchKPIMetrics (.ok [eco4JanRow]) aliceRep janStart janEnd none
        = ⟨0, 0, 0, 0, .val 0⟩ :=
  ⟨by decide, c6_eco4_non_admin_empty (.ok [eco4JanRow]) aliceRep janStart janEnd
    none (fun _ => 0) (by decide)⟩

/-- C7, counterexample: parseCurrency maps the non-empty unparsable string
abc to NaN, not to the zero the claim promises for every unparsable
value. -/
theorem c7_parse_currency_counterexample :
    parseCurrency (.str "abc") = .nan ∧ JSNum.nan ≠ .val 0 :=
  ⟨by decide, by decide⟩

/-- C7, amended: the numeric input 1234.5 and the string input with pound
sign and thousands separator both parse to 1234.5, and null, the empty
string and undefined all parse to 0; but only missing or empty values fall
back to zero: a non-empty string with no numeric prefix parses to NaN. -/
theorem c7_parse_currency_amended :
    parseCurrency (.num 1234.5) = .val 1234.5
    ∧ parseCurrency (.str "£1,234.50") = .val 1234.5
    ∧ parseCurrency .null = .val 0
    ∧ parseCurrency (.str "") = .val 0
    ∧ parseCurrency .undef = .val 0
    ∧ parseCurrency (.str "abc") = .nan := by
  refine ⟨rfl, ?_, rfl, rfl, rfl, by decide⟩
  have h1 : digitsVal ['1', '2', '3', '4'] = 1234 := by decide
  have h2 : digitsVal ['5', '0'] = 50 := by decide
  norm_num +decide [parseCurrency, stripCurrencyChars, parseFloat, parseMantissa,
    parseExponent, takeDigits, h1, h2]

/-- C3, counterexample: the resolver does produce the sentinel start (year
2020), but the Solar adapter does not skip its date filter on receiving
it: over a store holding one lead created in 2019, the sentinel-start
query returns the empty list while the no-lower-bound result set of the
same query keeps the lead, so the two result sets differ. -/
theorem c3_sentinel_counterexample :
    (getDateRange .all_time march15 none none).start.getFullYear = 2020
    ∧ Solar.fetchLeads (.ok [lead2019]) adminUser
        (getDateRange .all_time march15 none none).start janEnd none = .ok []
    ∧ Solar.fetchLeadsNoLowerBound (.ok [lead2019]) adminUser janEnd none
        = .ok [lead2019]
    ∧ (Except.ok ([] : List SolarLead) : Except String (List SolarLead))
        ≠ .ok [lead2019] :=
  ⟨by decide, rfl, rfl, by simp⟩

/-- C3, amended: getDateRange resolves all_time to the fixed sentinel start
of January 1, 2020 (local), and the ECO4 adapter's fetchLeads treats any
start date whose year is 2020 by skipping its date filter entirely,
returning exactly the result set of the unfiltered query; the Solar
adapter applies its Created_At bounds unconditionally, so the skip is an
ECO4 property rather than one of every adapter operation. -/
theorem c3_sentinel_amended (now : JSDate) (cs ce : Option String)
    (store : Except String (List ECO4Row)) (user : UserProfile)
    (startDate endDate : JSDate) (selectedRepFilter : Option String)
    (freshId : Nat → Int) (h : startDate.getFullYear = 2020) :
    (getDateRange .all_time now cs ce).start = JSDate.newDate 2020 0 1
    ∧ ECO4.fetchLeads store user startDate endDate selectedRepFilter freshId
        = ECO4.fetchLeadsNoDateFilter store user freshId := by
  refine ⟨rfl, ?_⟩
  unfold ECO4.fetchLeads ECO4.fetchLeadsNoDateFilter
  rw [show (startDate.getFullYear == 2020) = true from by rw [h]; rfl]
  cases store with
  | error e => rfl
  | ok table =>
    have hfilter : ∀ t : List ECO4Row,
        t.filter (ECO4.leadsDateOk true startDate endDate) = t :=
      fun t => List.filter_eq_self.mpr (fun a _ => rfl)
    simp only [hfilter]

/-- C3, witness: at the sentinel start the ECO4 adapter returns the same
mapped page as the unfiltered query over a store whose only row predates
2020. -/
theorem c3_sentinel_amended_witness :
    sentinel2020.getFullYear = 2020
    ∧ (getDateRange .all_time march15 none none).start = JSDate.newDate 2020 0 1
    ∧ ECO4.fetchLeads (.ok [eco4Row2019]) adminUser sentinel2020 janEnd none
        (fun _ => 5)
      = ECO4.fetchLeadsNoDateFilter (.ok [eco4Row2019]) adminUser (fun _ => 5) :=
  ⟨by decide,
   (c3_sentinel_amended march15 none none (.ok [eco4Row2019]) adminUser
     sentinel2020 janEnd none (fun _ => 5) (by decide)).1,
   (c3_sentinel_amended march15 none none (.ok [eco4Row2019]) adminUser
     sentinel2020 janEnd none (fun _ => 5) (by decide)).2⟩

/-- C8, counterexample: the ECO4 fetchFinancialData is also a
fetchFinancialData of the program, but it performs no Split halving: with
a single Split expense of 1000 and one cohort lead, its Field-channel
cost-per-lead is 1000 (the full undivided expense total), not the 500 the
claim's halving demands. -/
theorem c8_split_allocation_counterexample :
    (ECO4.fetchFinancialData (.ok [splitExpense]) [eco4JanRow]
      janStart janEnd).fieldMetrics.cpl = 1000
    ∧ (1000 : ℚ) ≠ 500 := by
  constructor
  · have h : (ECO4.fetchFinancialData (.ok [splitExpense]) [eco4JanRow]
        janStart janEnd).fieldMetrics.cpl = ((0 : ℚ) + 1000) / ((1 : Nat) : ℚ) := rfl
    rw [h]; norm_num
  · norm_num

/-- C8, amended: in the Solar adapter's fetchFinancialData, the Split total
is halved between the Field and Online expense buckets before the
per-channel cost-per-metric division: with Split expenses totalling 1000
and no direct Field or Online expenses, both channel buckets hold 500. -/
theorem c8_split_allocation (expenseData : List Expense)
    (h1 : sumAmt (expenseData.filter (fun e => e.expense_type == "Split")) = 1000)
    (h2 : expenseData.filter (fun e => e.expense_type == "Field") = [])
    (h3 : expenseData.filter (fun e => e.expense_type == "Online") = []) :
    Solar.fieldExpenses expenseData = 500 ∧ Solar.onlineExpenses expenseData = 500 := by
  unfold Solar.fieldExpenses Solar.onlineExpenses
  rw [h1, h2, h3]
  norm_num [sumAmt]

/-- C8, witness: the single Split expense of 1000 satisfies the scenario
hypotheses and both Solar channel buckets come out at 500. -/
theorem c8_split_allocation_witness :
    sumAmt ([splitExpense].filter (fun e => e.expense_type == "Split")) = 1000
    ∧ [splitExpense].filter (fun e => e.expense_type == "Field") = []
    ∧ [splitExpense].filter (fun e => e.expense_type == "Online") = []
    ∧ Solar.fieldExpenses [splitExpense] = 500
    ∧ Solar.onlineExpenses [splitExpense] = 500 := by
  have h1 : sumAmt ([splitExpense].filter (fun e => e.expense_type == "Split")) = 1000 := by
    norm_num [sumAmt, splitExpense, List.filter, List.foldl]
  have hmain := c8_split_allocation [splitExpense] h1 rfl rfl
  exact ⟨h1, rfl, rfl, hmain.1, hmain.2⟩

/-- C10: the ECO4 fetchLeads issues one page of at most 1000 rows: for any
store, user, range and filter, the returned list never exceeds 1000
records, and whenever the admin-visible matching set is larger, exactly
1000 records come back, the excess silently truncated (the date predicate
is the query's own leadsDateOk condition). -/
theorem c10_eco4_leads_page_cap (table : List ECO4Row) (user : UserProfile)
    (startDate endDate : JSDate) (selectedRepFilter : Option String)
    (freshId : Nat → Int) :
    (okD (ECO4.fetchLeads (.ok table) user startDate endDate selectedRepFilter
      freshId)).length ≤ 1000
    ∧ (user.role = .admin →
        1000 < (table.filter (ECO4.leadsDateOk (startDate.getFullYear == 2020)
          startDate endDate)).length →
        (okD (ECO4.fetchLeads (.ok table) user startDate endDate selectedRepFilter
          freshId)).length = 1000) := by
  unfold ECO4.fetchLeads
  by_cases hr : (user.role != Role.admin) = true
  · rw [if_pos hr]
    refine ⟨by simp [okD], fun ha _ => ?_⟩
    rw [ha] at hr
    exact absurd hr (by decide)
  · rw [if_neg hr]
    simp only [okD]
    rw [List.length_mapIdx, List.length_take, mergeSort_length]
    exact ⟨min_le_left _ _, fun _ hgt => Nat.min_eq_left hgt.le⟩

/-- C10, witness: a store of 1001 matching rows yields exactly 1000 mapped
records for an admin query. -/
theorem c10_eco4_leads_page_cap_witness :
    adminUser.role = .admin
    ∧ 1000 < (bigTable.filter (ECO4.leadsDateOk (janStart.getFullYear == 2020)
        janStart janEnd)).length
    ∧ (okD (ECO4.fetchLeads (.ok bigTable) adminUser janStart janEnd none
        (fun _ => 0))).length = 1000 := by
  have hp : ECO4.leadsDateOk (janStart.getFullYear == 2020) janStart janEnd
      truncRow = true := by decide
  have hf : bigTable.filter (ECO4.leadsDateOk (janStart.getFullYear == 2020)
      janStart janEnd) = bigTable := by
    unfold bigTable
    exact filter_replicate_pos _ _ hp 1001
  have hlen : 1000 < (bigTable.filter (ECO4.leadsDateOk
      (janStart.getFullYear == 2020) janStart janEnd)).length := by
    rw [hf]; unfold bigTable; rw [List.length_replicate]; decide
  exact ⟨rfl, hlen,
    (c10_eco4_leads_page_cap bigTable adminUser janStart janEnd none
      (fun _ => 0)).2 rfl hlen⟩

set_option maxRecDepth 8000 in
/-- C9, counterexample: the Solar fetchInstallerPerformance does not clamp
its rates.  Over two cohort rows of one installer, both with install dates
but only one with a survey date, the survey-to-install rate comes back as
200, exceeding the claimed bound of 100 (the claim names exactly this
more-installs-than-surveys inconsistency). -/
theorem c9_rate_clamp_counterexample :
    (Solar.fetchInstallerPerformance (.ok [installerRow1, installerRow2])
      janStart janEnd).map (fun s => s.surveyToInstallRate) = [200]
    ∧ ¬((200 : ℚ) ≤ 100) := by
  constructor
  · have h2 : inRange janStart.code janEnd.code (some (jan25 2)) = true := by decide
    have h3 : inRange janStart.code janEnd.code (some (jan25 3)) = true := by decide
    norm_num +decide [Solar.fetchInstallerPerformance, installerRow1, installerRow2,
      blankLead, jsOrStr, dedupFirst, sumRevenue, List.mergeSort, h2, h3]
  · norm_num

/-- C9, amended: the clamping the claim describes is implemented in the
ECO4 adapter alone: every entry of its fetchInstallerPerformance carries
the four funnel rates computed each with its own zero-guarded denominator
and clamped by Math.min, so each lies in the closed range 0 to 100 for
every store and range; the Solar adapter substitutes 1 for a zero
denominator and never clamps, so its rates can exceed 100. -/
theorem c9_eco4_rates_clamped (table : List ECO4Row) (startDate endDate : JSDate) :
    (ECO4.fetchInstallerPerformance table startDate endDate).all
      (fun s => decide (0 ≤ s.leadToPaidRate) && decide (s.leadToPaidRate ≤ 100)
        && decide (0 ≤ s.leadToSurveyRate) && decide (s.leadToSurveyRate ≤ 100)
        && decide (0 ≤ s.surveyToInstallRate) && decide (s.surveyToInstallRate ≤ 100)
        && decide (0 ≤ s.installToPaidRate) && decide (s.installToPaidRate ≤ 100)) = true := by
  unfold ECO4.fetchInstallerPerformance
  rw [all_mergeSort, List.all_eq_true]
  intro s hs
  rw [List.mem_map] at hs
  obtain ⟨n, _, rfl⟩ := hs
  simp only [Bool.and_eq_true, decide_eq_true_eq]
  have hle : ∀ q : ℚ, min q 100 ≤ 100 := fun q => min_le_right q 100
  have hge : ∀ (a b : Nat),
      (0 : ℚ) ≤ min (if 0 < a then ((b : ℚ) / (a : ℚ)) * 100 else 0) 100 := by
    intro a b
    refine le_min ?_ (by norm_num)
    split
    · positivity
    · exact le_refl 0
  exact ⟨⟨⟨⟨⟨⟨⟨hge _ _, hle _⟩, hge _ _⟩, hle _⟩, hge _ _⟩, hle _⟩, hge _ _⟩, hle _⟩

/-- C5: when the backing-store query fails, every aggregate operation of
the Solar adapter returns its safe default: fetchKPIMetrics the all-zero
bundle, both leaderboards, both trends, the source stats and the
installer stats the empty list, fetchFinancialData the all-zero financial
bundle and fetchFinancialTrend all-zero buckets; fetchLeads alone
re-raises the store error (its account-manager empty-name guard, which
returns early before any query runs, is excluded by hypothesis). -/
theorem c5_error_defaults (er : String) (user : UserProfile)
    (startDate endDate now : JSDate) (selectedRepFilter : Option String)
    (osd oed : Option JSDate)
    (h : ¬(user.role = .account_manager ∧ user.name = "")) :
    Solar.fetchLeads (.error er) user startDate endDate selectedRepFilter = .error er
    ∧ Solar.fetchKPIMetrics (.error er) user startDate endDate selectedRepFilter
        = ⟨0, 0, 0, 0, 0⟩
    ∧ Solar.fetchLeaderboardStats (.error er) = []
    ∧ Solar.fetchAccountManagerLeaderboard (.error er) osd oed = []
    ∧ Solar.fetchSixMonthTrend (.error er) now = []
    ∧ Solar.fetchRevenueTrend (.error er) now = []
    ∧ Solar.fetchLeadSourceStats (.error er) startDate endDate = []
    ∧ Solar.fetchInstallerPerformance (.error er) startDate endDate = []
    ∧ (Solar.fetchFinancialData (.error er) (.error er) (.error er)
        startDate endDate).summary = ⟨0, 0, 0, 0⟩
    ∧ (Solar.fetchFinancialData (.error er) (.error er) (.error er)
        startDate endDate).fieldMetrics = ⟨0, 0, 0⟩
    ∧ (Solar.fetchFinancialData (.error er) (.error er) (.error er)
        startDate endDate).onlineMetrics = ⟨0, 0, 0⟩
    ∧ (Solar.fetchFinancialData (.error er) (.error er) (.error er)
        startDate endDate).expenseBreakdown.all
        (fun b => b.amount == 0 && b.percentage == 0) = true
    ∧ (Solar.fetchFinancialData (.error er) (.error er) (.error er)
        startDate endDate).sourceBreakdown
        = [⟨"Field Rep", 0, 0, 0, 0⟩, ⟨"Online Ads", 0, 0, 0, 0⟩]
    ∧ (Solar.fetchFinancialTrend (.error er) (.error er) now).all
        (fun t => t.revenue == 0 && t.expenses == 0 && t.netProfit == 0) = true := by
  refine ⟨?_, rfl, rfl, rfl, rfl, rfl, ?_, rfl, ?_, rfl, rfl, ?_, rfl, ?_⟩
  · have hc : (user.role == Role.account_manager && user.name == "") = false := by
      cases hrole : user.role
      · rfl
      · have hn : user.name ≠ "" := fun hn => h ⟨hrole, hn⟩
        simp [hn]
      · rfl
    unfold Solar.fetchLeads
    rw [hc]
    rfl
  · simp [Solar.fetchLeadSourceStats, okD, dedupFirst, List.mergeSort]
  · simp [Solar.fetchFinancialData, okD, sumAmt, sumRevenue]
  · simp [Solar.fetchFinancialData, okD, sumAmt, all_mergeSort]
  · have hr6 : List.range 6 = [0, 1, 2, 3, 4, 5] := rfl
    simp [Solar.fetchFinancialTrend, okD, sumRevenue, sumAmt, hr6]

/-- C5, witness: the defaults at a concrete failure (error message boom,
admin user, January 2025 range) with the admin user discharging the
account-manager guard hypothesis. -/
theorem c5_error_defaults_witness :
    ¬(adminUser.role = .account_manager ∧ adminUser.name = "")
    ∧ (Solar.fetchLeads (.error "boom") adminUser janStart janEnd none = .error "boom"
    ∧ Solar.fetchKPIMetrics (.error "boom") adminUser janStart janEnd none
        = ⟨0, 0, 0, 0, 0⟩
    ∧ Solar.fetchLeaderboardStats (.error "boom") = []
    ∧ Solar.fetchAccountManagerLeaderboard (.error "boom") none none = []
    ∧ Solar.fetchSixMonthTrend (.error "boom") march15 = []
    ∧ Solar.fetchRevenueTrend (.error "boom") march15 = []
    ∧ Solar.fetchLeadSourceStats (.error "boom") janStart janEnd = []
    ∧ Solar.fetchInstallerPerformance (.error "boom") janStart janEnd = []
    ∧ (Solar.fetchFinancialData (.error "boom") (.error "boom") (.error "boom")
        janStart janEnd).summary = ⟨0, 0, 0, 0⟩
    ∧ (Solar.fetchFinancialData (.error "boom") (.error "boom") (.error "boom")
        janStart janEnd).fieldMetrics = ⟨0, 0, 0⟩
    ∧ (Solar.fetchFinancialData (.error "boom") (.error "boom") (.error "boom")
        janStart janEnd).onlineMetrics = ⟨0, 0, 0⟩
    ∧ (Solar.fetchFinancialData (.error "boom") (.error "boom") (.error "boom")
        janStart janEnd).expenseBreakdown.all
        (fun b => b.amount == 0 && b.percentage == 0) = true
    ∧ (Solar.fetchFinancialData (.error "boom") (.error "boom") (.error "boom")
        janStart janEnd).sourceBreakdown
        = [⟨"Field Rep", 0, 0, 0, 0⟩, ⟨"Online Ads", 0, 0, 0, 0⟩]
    ∧ (Solar.fetchFinancialTrend (.error "boom") (.error "boom") march15).all
        (fun t => t.revenue == 0 && t.expenses == 0 && t.netProfit == 0) = true) :=
  ⟨by decide,
   c5_error_defaults "boom" adminUser janStart janEnd march15 none none none
     (by decide)⟩
